import Mathlib

/-!
Shallow embedding of `src/routes/doctors.js` (MediSync).

The handlers are modelled as pure functions from an explicit environment
(the relational store contents, the Redis cache contents and availability
flags, the pub/sub publisher availability, the Socket.IO registry
availability, and the current time) to an output record collecting the
post-state, the side effects performed (update statements executed, cache
keys deleted, events published on the broadcast channel, events emitted
directly), and the HTTP response.

Machine conventions: ids, dates and times are `Nat` (a date such as
`2024-01-10` is encoded as the number `20240110`, which preserves the
chronological order used by the SQL `ORDER BY`); JSON serialization is
modelled as the identity (the cache stores the structured value); a JS
exception caught by a `catch` block is modelled by the branch the catch
takes; an exception reaching the handler's outer catch is modelled by an
`Option`-valued body (`none` = the body threw).
-/

namespace MediSync

/-- A row of the `patients` table (the columns this module reads). -/
structure Patient where
  id : Nat
  name : String
deriving Repr, DecidableEq

/-- A row of the `doctors` table (the columns this module reads). -/
structure Doctor where
  id : Nat
  name : String
  specialization : String
deriving Repr, DecidableEq

/-- A row of the `appointments` table (the columns this module reads). -/
structure Appointment where
  id : Nat
  doctor_id : Nat
  patient_id : Nat
  status : String
  appointment_date : Nat
  start_time : Nat
  end_time : Nat
deriving Repr, DecidableEq

/-- One entry of the Redis key space: a key, a value, and an optional
absolute expiration instant (`none` = no TTL was set). -/
structure CacheEntry (α : Type) where
  key : String
  value : α
  expiresAt : Option Nat
deriving Repr, DecidableEq

/-- Redis `GET` at instant `now`: an entry is visible while `now` is
strictly before its expiration instant; an entry with no TTL never
expires. -/
def cacheGet {α : Type} (entries : List (CacheEntry α)) (now : Nat) (k : String) : Option α :=
  match entries.find? (fun e => e.key == k) with
  | some e =>
    match e.expiresAt with
    | none => some e.value
    | some t => if now < t then some e.value else none
  | none => none

/-- Redis `SET` / `SETEX`: overwrite the key with the new value and the
new expiration (absolute instant, `none` = no TTL). -/
def cacheSet {α : Type} (entries : List (CacheEntry α)) (k : String) (v : α)
    (exp : Option Nat) : List (CacheEntry α) :=
  ⟨k, v, exp⟩ :: entries.filter (fun e => e.key != k)

/-- Redis `DEL`. -/
def cacheDel {α : Type} (entries : List (CacheEntry α)) (k : String) : List (CacheEntry α) :=
  entries.filter (fun e => e.key != k)

/-- The cache key used by the dashboard path: the template literal
`appointments:${doctor_id}`. -/
def dashKey (doctor_id : Nat) : String := "appointments:" ++ toString doctor_id

/-- The presence key: the template literal `doctor:status:${doctorId}`. -/
def statusKey (doctorId : Nat) : String := "doctor:status:" ++ toString doctorId

/-! ## Dashboard read path (GET /dashboard) -/

/-- A row of the dashboard query result: `SELECT a.*, p.name as
patient_name`. -/
structure DashRow where
  id : Nat
  doctor_id : Nat
  patient_id : Nat
  status : String
  appointment_date : Nat
  start_time : Nat
  end_time : Nat
  patient_name : String
deriving Repr, DecidableEq

/-- The `CASE WHEN a.status = 'pending' THEN 0 ELSE 1 END` sort key. -/
def statusRank (s : String) : Nat := if s = "pending" then 0 else 1

/-- The comparison realizing `ORDER BY CASE WHEN status = 'pending' THEN 0
ELSE 1 END, appointment_date, start_time`. -/
def dashRel (r1 r2 : DashRow) : Prop :=
  statusRank r1.status < statusRank r2.status ∨
    (statusRank r1.status = statusRank r2.status ∧
      (r1.appointment_date < r2.appointment_date ∨
        (r1.appointment_date = r2.appointment_date ∧ r1.start_time ≤ r2.start_time)))

instance : DecidableRel dashRel := fun r1 r2 => by unfold dashRel; infer_instance

instance : IsTrans DashRow dashRel :=
  ⟨by intro a b c hab hbc; unfold dashRel at hab hbc ⊢; omega⟩

instance : IsTotal DashRow dashRel :=
  ⟨by intro a b; unfold dashRel; omega⟩

/-- The unsorted content of the dashboard query: `FROM appointments a JOIN
patients p ON a.patient_id = p.id WHERE a.doctor_id = $1`. -/
def dashboardJoin (apps : List Appointment) (patients : List Patient)
    (doctor_id : Nat) : List DashRow :=
  (apps.filter (fun a => a.doctor_id == doctor_id)).filterMap fun a =>
    (patients.find? (fun p => p.id == a.patient_id)).map fun p =>
      { id := a.id, doctor_id := a.doctor_id, patient_id := a.patient_id,
        status := a.status, appointment_date := a.appointment_date,
        start_time := a.start_time, end_time := a.end_time, patient_name := p.name }

/-- The dashboard `db.query`: the join, ordered by the three-part key. -/
def dashboardQuery (apps : List Appointment) (patients : List Patient)
    (doctor_id : Nat) : List DashRow :=
  List.insertionSort dashRel (dashboardJoin apps patients doctor_id)

/-- Environment of one GET /dashboard request. -/
structure DashEnv where
  now : Nat
  doctor_id : Nat
  /-- `redisClient && redisClient.isOpen` -/
  redisOpen : Bool
  /-- the `redisClient.get` call raises (caught by the cache catch) -/
  cacheGetFails : Bool
  /-- the `redisClient.setEx` call raises (caught by the populate catch) -/
  cacheSetFails : Bool
  cache : List (CacheEntry (List DashRow))
  /-- the appointments `db.query` succeeds -/
  dbOk : Bool
  appointments : List Appointment
  patients : List Patient
deriving Repr, DecidableEq

/-- What GET /dashboard hands to `res.render` plus the post cache state. -/
structure DashOut where
  error : Option String
  appointments : List DashRow
  fromCache : Bool
  cache : List (CacheEntry (List DashRow))
deriving Repr, DecidableEq

/-- The cache-probe step of the dashboard: the value read when the client
is open and the `get` does not raise; a raising `get` is caught and
treated as a miss. -/
def dashCached (env : DashEnv) : Option (List DashRow) :=
  if env.redisOpen && !env.cacheGetFails then
    cacheGet env.cache env.now (dashKey env.doctor_id)
  else none

/-- GET /dashboard. On a hit the cached rows are returned with
`fromCache = true`. On a miss the store is queried; on store success the
result is cached with a 45-unit TTL (a raising `setEx` is caught and
ignored); on store failure the inner catch swallows the error and the
handler renders with `error: null` and the (still empty) list. -/
def dashboardHandler (env : DashEnv) : DashOut :=
  match dashCached env with
  | some rows =>
    { error := none, appointments := rows, fromCache := true, cache := env.cache }
  | none =>
    if env.dbOk then
      let rows := dashboardQuery env.appointments env.patients env.doctor_id
      let cache' :=
        if env.redisOpen && !env.cacheSetFails then
          cacheSet env.cache (dashKey env.doctor_id) rows (some (env.now + 45))
        else env.cache
      { error := none, appointments := rows, fromCache := false, cache := cache' }
    else
      { error := none, appointments := [], fromCache := false, cache := env.cache }

/-- The ordering the specification describes: every pending row before
every non-pending row, and within a rank ascending date then ascending
start time. -/
def dashOrdered (r1 r2 : DashRow) : Prop :=
  (r1.status = "pending" ∧ r2.status ≠ "pending") ∨
  ((r1.status = "pending" ↔ r2.status = "pending") ∧
    (r1.appointment_date < r2.appointment_date ∨
      (r1.appointment_date = r2.appointment_date ∧ r1.start_time ≤ r2.start_time)))

/-! ## Write-invalidation path (POST /appointment/:id/accept and /reject) -/

/-- A row of the joined select: `SELECT a.*, p.id as patient_id, p.name as
patient_name, d.name as doctor_name, d.specialization FROM appointments a
JOIN patients p ON a.patient_id = p.id JOIN doctors d ON a.doctor_id =
d.id WHERE a.id = $1`. -/
structure JoinedRow where
  id : Nat
  doctor_id : Nat
  patient_id : Nat
  status : String
  appointment_date : Nat
  start_time : Nat
  end_time : Nat
  patient_name : String
  doctor_name : String
  specialization : String
deriving Repr, DecidableEq

/-- The joined select of the accept/reject handlers. An appointment whose
patient or doctor row is missing produces no row (inner join). -/
def appointmentSelect (apps : List Appointment) (patients : List Patient)
    (doctors : List Doctor) (aid : Nat) : List JoinedRow :=
  (apps.filter (fun a => a.id == aid)).filterMap fun a =>
    (patients.find? (fun p => p.id == a.patient_id)).bind fun p =>
      (doctors.find? (fun d => d.id == a.doctor_id)).map fun d =>
        { id := a.id, doctor_id := a.doctor_id, patient_id := p.id,
          status := a.status, appointment_date := a.appointment_date,
          start_time := a.start_time, end_time := a.end_time,
          patient_name := p.name, doctor_name := d.name,
          specialization := d.specialization }

/-- The `UPDATE appointments SET status = $1 WHERE id = $2` statement:
every row whose `id` matches gets the new status. -/
def updateStatus (apps : List Appointment) (newStatus : String) (aid : Nat) :
    List Appointment :=
  apps.map fun a => if a.id == aid then { a with status := newStatus } else a

/-- The `eventData` payload built by the accept/reject handlers. -/
structure EventData where
  appointmentId : Nat
  patientId : Nat
  status : String
  doctorName : String
  specialization : String
  appointmentDate : Nat
  startTime : Nat
  endTime : Nat
deriving Repr, DecidableEq

/-- Environment of one accept/reject request. -/
structure WriteEnv where
  appointments : List Appointment
  patients : List Patient
  doctors : List Doctor
  /-- the joined `SELECT` succeeds -/
  dbSelectOk : Bool
  /-- the `UPDATE` statement succeeds -/
  dbUpdateOk : Bool
  /-- `redisClient && redisClient.isOpen` -/
  redisOpen : Bool
  /-- the `redisClient.del` call raises (caught by the invalidation catch) -/
  cacheDelFails : Bool
  /-- `redisPublisher && redisPublisher.isOpen` -/
  pubOpen : Bool
  /-- the `redisPublisher.publish` call raises -/
  pubFails : Bool
  /-- `req.app.get` of the Socket.IO registry yields a usable object -/
  ioOpen : Bool
deriving Repr, DecidableEq

/-- HTTP responses the embedded handlers produce. -/
inductive Response where
  | redirect (path : String)
  | serverError (code : Nat) (body : String)
  | jsonOk (status : String)
  | jsonErr (code : Nat) (error : String)
deriving Repr, DecidableEq

/-- Side effects accumulated by an accept/reject body: the post
appointments table, the update statements executed, the cache keys
actually deleted, the events published on the broadcast channel, and the
events emitted directly on Socket.IO. -/
structure WriteEff where
  appointments : List Appointment
  updatesExecuted : List (String × Nat)
  cacheDels : List String
  published : List (String × EventData)
  emitted : List (String × EventData)
deriving Repr, DecidableEq

/-- Attach the response the outer catch (or the success path) chooses. -/
def WriteEff.withResponse (eff : WriteEff) (r : Response) :
    WriteEff × Response := (eff, r)

/-- The result of an accept/reject handler. -/
structure WriteOut where
  appointments : List Appointment
  updatesExecuted : List (String × Nat)
  cacheDels : List String
  published : List (String × EventData)
  emitted : List (String × EventData)
  response : Response
deriving Repr, DecidableEq

/-- Package effects and a response into a handler result. -/
def mkWriteOut (eff : WriteEff) (r : Response) : WriteOut :=
  { appointments := eff.appointments, updatesExecuted := eff.updatesExecuted,
    cacheDels := eff.cacheDels, published := eff.published,
    emitted := eff.emitted, response := r }

/-- Body of the accept handler (everything inside the outer `try`).
`none` as second component means the body threw and the outer catch
takes over. Transcribed from the accept route: select the joined row,
run the UPDATE unconditionally, read `rows[0]`, attempt the cache
delete inside its own try/catch (a missing row makes the key template
throw there, which is caught), build `eventData` (a missing row throws
here, uncaught), then publish with the direct Socket.IO fallback. -/
def acceptBody (env : WriteEnv) (appointmentId : Nat) : WriteEff × Option Response :=
  if !env.dbSelectOk then
    ({ appointments := env.appointments, updatesExecuted := [], cacheDels := [],
       published := [], emitted := [] }, none)
  else
    let rows := appointmentSelect env.appointments env.patients env.doctors appointmentId
    if !env.dbUpdateOk then
      ({ appointments := env.appointments, updatesExecuted := [], cacheDels := [],
         published := [], emitted := [] }, none)
    else
      let apps' := updateStatus env.appointments "accepted" appointmentId
      let appointment := rows.head?
      let dels :=
        if env.redisOpen then
          match appointment with
          | some appt =>
            if env.cacheDelFails then [] else [dashKey appt.doctor_id]
          | none => []
        else []
      let eff0 : WriteEff :=
        { appointments := apps', updatesExecuted := [("accepted", appointmentId)],
          cacheDels := dels, published := [], emitted := [] }
      match appointment with
      | none => (eff0, none)
      | some appt =>
        let eventData : EventData :=
          { appointmentId := appointmentId, patientId := appt.patient_id,
            status := "accepted", doctorName := appt.doctor_name,
            specialization := appt.specialization,
            appointmentDate := appt.appointment_date,
            startTime := appt.start_time, endTime := appt.end_time }
        if env.pubOpen then
          if env.pubFails then
            if env.ioOpen then
              ({ eff0 with emitted := [("appointmentStatusUpdated", eventData)] },
               some (.redirect ("/doctors/dashboard")))
            else (eff0, none)
          else
            ({ eff0 with published := [("appointment:updated", eventData)] },
             some (.redirect ("/doctors/dashboard")))
        else
          if env.ioOpen then
            ({ eff0 with emitted := [("appointmentStatusUpdated", eventData)] },
             some (.redirect ("/doctors/dashboard")))
          else (eff0, none)

/-- POST /appointment/:id/accept: the body wrapped in the outer
try/catch, whose catch answers 500 with the accept error page. -/
def acceptHandler (env : WriteEnv) (appointmentId : Nat) : WriteOut :=
  match acceptBody env appointmentId with
  | (eff, some resp) => mkWriteOut eff resp
  | (eff, none) => mkWriteOut eff (.serverError 500 ("Error accepting appointment"))

/-- Body of the reject handler (everything inside the outer `try`),
transcribed from the reject route. -/
def rejectBody (env : WriteEnv) (appointmentId : Nat) : WriteEff × Option Response :=
  if !env.dbSelectOk then
    ({ appointments := env.appointments, updatesExecuted := [], cacheDels := [],
       published := [], emitted := [] }, none)
  else
    let rows := appointmentSelect env.appointments env.patients env.doctors appointmentId
    if !env.dbUpdateOk then
      ({ appointments := env.appointments, updatesExecuted := [], cacheDels := [],
         published := [], emitted := [] }, none)
    else
      let apps' := updateStatus env.appointments "rejected" appointmentId
      let appointment := rows.head?
      let dels :=
        if env.redisOpen then
          match appointment with
          | some appt =>
            if env.cacheDelFails then [] else [dashKey appt.doctor_id]
          | none => []
        else []
      let eff0 : WriteEff :=
        { appointments := apps', updatesExecuted := [("rejected", appointmentId)],
          cacheDels := dels, published := [], emitted := [] }
      match appointment with
      | none => (eff0, none)
      | some appt =>
        let eventData : EventData :=
          { appointmentId := appointmentId, patientId := appt.patient_id,
            status := "rejected", doctorName := appt.doctor_name,
            specialization := appt.specialization,
            appointmentDate := appt.appointment_date,
            startTime := appt.start_time, endTime := appt.end_time }
        if env.pubOpen then
          if env.pubFails then
            if env.ioOpen then
              ({ eff0 with emitted := [("appointmentStatusUpdated", eventData)] },
               some (.redirect ("/doctors/dashboard")))
            else (eff0, none)
          else
            ({ eff0 with published := [("appointment:updated", eventData)] },
             some (.redirect ("/doctors/dashboard")))
        else
          if env.ioOpen then
            ({ eff0 with emitted := [("appointmentStatusUpdated", eventData)] },
             some (.redirect ("/doctors/dashboard")))
          else (eff0, none)

/-- POST /appointment/:id/reject: the body wrapped in the outer
try/catch, whose catch answers 500 with the reject error page. -/
def rejectHandler (env : WriteEnv) (appointmentId : Nat) : WriteOut :=
  match rejectBody env appointmentId with
  | (eff, some resp) => mkWriteOut eff resp
  | (eff, none) => mkWriteOut eff (.serverError 500 ("Error rejecting appointment"))

/-- Body of the accept handler after substituting the string literal
`accepted` by `rejected` throughout the accept route's source text. The
literal occurs as the UPDATE parameter and as the `eventData.status`
field; the outer-catch message `Error accepting appointment` contains no
occurrence of `accepted` and is therefore unchanged by the
substitution. -/
def acceptBodySubst (env : WriteEnv) (appointmentId : Nat) : WriteEff × Option Response :=
  if !env.dbSelectOk then
    ({ appointments := env.appointments, updatesExecuted := [], cacheDels := [],
       published := [], emitted := [] }, none)
  else
    let rows := appointmentSelect env.appointments env.patients env.doctors appointmentId
    if !env.dbUpdateOk then
      ({ appointments := env.appointments, updatesExecuted := [], cacheDels := [],
         published := [], emitted := [] }, none)
    else
      let apps' := updateStatus env.appointments "rejected" appointmentId
      let appointment := rows.head?
      let dels :=
        if env.redisOpen then
          match appointment with
          | some appt =>
            if env.cacheDelFails then [] else [dashKey appt.doctor_id]
          | none => []
        else []
      let eff0 : WriteEff :=
        { appointments := apps', updatesExecuted := [("rejected", appointmentId)],
          cacheDels := dels, published := [], emitted := [] }
      match appointment with
      | none => (eff0, none)
      | some appt =>
        let eventData : EventData :=
          { appointmentId := appointmentId, patientId := appt.patient_id,
            status := "rejected", doctorName := appt.doctor_name,
            specialization := appt.specialization,
            appointmentDate := appt.appointment_date,
            startTime := appt.start_time, endTime := appt.end_time }
        if env.pubOpen then
          if env.pubFails then
            if env.ioOpen then
              ({ eff0 with emitted := [("appointmentStatusUpdated", eventData)] },
               some (.redirect ("/doctors/dashboard")))
            else (eff0, none)
          else
            ({ eff0 with published := [("appointment:updated", eventData)] },
             some (.redirect ("/doctors/dashboard")))
        else
          if env.ioOpen then
            ({ eff0 with emitted := [("appointmentStatusUpdated", eventData)] },
             some (.redirect ("/doctors/dashboard")))
          else (eff0, none)

/-- The accept handler after the literal substitution `accepted` to
`rejected`: the substituted body under the unchanged outer catch. -/
def acceptHandlerSubst (env : WriteEnv) (appointmentId : Nat) : WriteOut :=
  match acceptBodySubst env appointmentId with
  | (eff, some resp) => mkWriteOut eff resp
  | (eff, none) => mkWriteOut eff (.serverError 500 ("Error accepting appointment"))

/-- Does a response express a client-visible Not-Found condition? -/
def isClientNotFound (r : Response) : Bool :=
  match r with
  | .serverError c _ => c == 404
  | .jsonErr c _ => c == 404
  | _ => false

/-- Two responses that agree except possibly in the human-readable body
of a server error with the same status code. -/
def sameUpToMessage (r1 r2 : Response) : Prop :=
  r1 = r2 ∨ ∃ c m1 m2, r1 = .serverError c m1 ∧ r2 = .serverError c m2

/-! ## Presence/status store (POST /status/update, GET /status, GET /status/all) -/

/-- The `statusEvent` payload of the presence path (its `timestamp`,
`new Date().toISOString()` in the source, is the current instant). -/
structure StatusEvent where
  doctorId : Nat
  doctorName : String
  status : String
  timestamp : Nat
deriving Repr, DecidableEq

/-- Environment of one POST /status/update request. `ioOpen` records
whether the direct Socket.IO registry is available in the process; the
source of this handler never consults it, it is carried to let the
fallback-exclusivity property be stated. -/
structure StatusEnv where
  now : Nat
  doctorId : Nat
  doctorName : String
  /-- `redisClient && redisClient.isOpen` -/
  redisOpen : Bool
  /-- the `redisClient.set` / `setEx` call raises -/
  storeFails : Bool
  presence : List (CacheEntry String)
  /-- `redisPublisher && redisPublisher.isOpen` -/
  pubOpen : Bool
  /-- the `redisPublisher.publish` call raises -/
  pubFails : Bool
  /-- the direct Socket.IO registry is available -/
  ioOpen : Bool
deriving Repr, DecidableEq

/-- The result of the status-update handler. `emitted` records direct
Socket.IO deliveries; the source of this handler contains no `io.emit`
call, so it is empty on every path. -/
structure StatusOut where
  presence : List (CacheEntry String)
  published : List (String × StatusEvent)
  emitted : List (String × StatusEvent)
  response : Response
deriving Repr, DecidableEq

/-- The `validStatuses` array of the source. -/
def validStatuses : List String := ["available", "busy", "offline"]

/-- POST /status/update. Validation first (400 on a bad value, no
mutation). With Redis open, `offline` is stored by `set` (no TTL) and
any other valid value by `setEx` with a 1800-unit TTL; then, when the
publisher is open, the presence event is published — a raising `publish`
propagates to the outer catch, which answers 500 after the store write
already happened. With Redis closed the handler answers 503. -/
def setStatusHandler (env : StatusEnv) (status : String) : StatusOut :=
  if !(validStatuses.contains status) then
    { presence := env.presence, published := [], emitted := [],
      response := .jsonErr 400 ("Invalid status. Must be available, busy, or offline.") }
  else if env.redisOpen then
    if env.storeFails then
      { presence := env.presence, published := [], emitted := [],
        response := .jsonErr 500 ("Failed to update status") }
    else
      let presence' :=
        if status == "offline" then
          cacheSet env.presence (statusKey env.doctorId) status none
        else
          cacheSet env.presence (statusKey env.doctorId) status (some (env.now + 1800))
      let statusEvent : StatusEvent :=
        { doctorId := env.doctorId, doctorName := env.doctorName,
          status := status, timestamp := env.now }
      if env.pubOpen then
        if env.pubFails then
          { presence := presence', published := [], emitted := [],
            response := .jsonErr 500 ("Failed to update status") }
        else
          { presence := presence',
            published := [("doctor:status:changed", statusEvent)],
            emitted := [], response := .jsonOk status }
      else
        { presence := presence', published := [], emitted := [],
          response := .jsonOk status }
  else
    { presence := env.presence, published := [], emitted := [],
      response := .jsonErr 503 ("Redis unavailable") }

/-- GET /status: the stored presence value, or `offline` when the key is
absent or expired or Redis is closed (the catch path likewise answers
`offline`). -/
def getStatusHandler (redisOpen : Bool) (presence : List (CacheEntry String))
    (now doctorId : Nat) : String :=
  if redisOpen then
    Option.getD (cacheGet presence now (statusKey doctorId)) ("offline")
  else "offline"

/-- Environment of one GET /status/all request. -/
structure AllEnv where
  now : Nat
  /-- `redisClient && redisClient.isOpen` -/
  redisOpen : Bool
  presence : List (CacheEntry String)
  /-- the `SELECT id FROM doctors` query succeeds -/
  dbOk : Bool
  doctors : List Doctor
deriving Repr, DecidableEq

/-- The result of GET /status/all: the JSON object of statuses, or an
error response. -/
inductive AllResp where
  | ok (statuses : List (Nat × String))
  | err (code : Nat) (msg : String)
deriving Repr, DecidableEq

/-- JS object assignment `statuses[id] = v`: overwrite in place when the
key exists, append otherwise (insertion order preserved). -/
def objAssign (m : List (Nat × String)) (k : Nat) (v : String) :
    List (Nat × String) :=
  if m.any (fun p => p.1 == k) then
    m.map (fun p => if p.1 == k then (k, v) else p)
  else m ++ [(k, v)]

/-- GET /status/all: the doctor ids from the store, then one presence
lookup per id (absent value defaults to `offline`); with Redis closed
every id maps to `offline`; a failing store query reaches the outer
catch, which answers 500. -/
def getAllStatusesHandler (env : AllEnv) : AllResp :=
  if !env.dbOk then .err 500 ("Failed to get statuses")
  else
    let doctorIds := env.doctors.map (fun row => row.id)
    let statuses :=
      if env.redisOpen then
        doctorIds.foldl (fun m id =>
          objAssign m id
            (Option.getD (cacheGet env.presence env.now (statusKey id)) ("offline"))) []
      else
        doctorIds.foldl (fun m id => objAssign m id ("offline")) []
    .ok statuses

/-! ## Concrete environments for witnesses and counterexamples -/

/-- Accept request whose appointment row exists but whose doctor row is
missing, so the joined select resolves to no row. -/
def envC1 : WriteEnv :=
  { appointments := [{ id := 42, doctor_id := 1, patient_id := 1,
                       status := "pending", appointment_date := 20240110,
                       start_time := 9, end_time := 10 }],
    patients := [{ id := 1, name := "Pat" }],
    doctors := [],
    dbSelectOk := true, dbUpdateOk := true, redisOpen := true,
    cacheDelFails := false, pubOpen := true, pubFails := false, ioOpen := true }

/-- Cold-cache dashboard read for doctor 1 with one pending and two
accepted appointments (the specification's example scenario). -/
def envC2 : DashEnv :=
  { now := 0, doctor_id := 1, redisOpen := true, cacheGetFails := false,
    cacheSetFails := false, cache := [], dbOk := true,
    appointments :=
      [{ id := 1, doctor_id := 1, patient_id := 1, status := "accepted",
         appointment_date := 20240110, start_time := 9, end_time := 10 },
       { id := 2, doctor_id := 1, patient_id := 1, status := "accepted",
         appointment_date := 20240105, start_time := 9, end_time := 10 },
       { id := 3, doctor_id := 1, patient_id := 1, status := "pending",
         appointment_date := 20240110, start_time := 8, end_time := 9 }],
    patients := [{ id := 1, name := "Pat" }] }

/-- Status update with the broadcast publisher closed while the direct
Socket.IO registry is available. -/
def envC3 : StatusEnv :=
  { now := 0, doctorId := 1, doctorName := "Dr A", redisOpen := true,
    storeFails := false, presence := [], pubOpen := false, pubFails := false,
    ioOpen := true }

/-- Accept request with a fully resolvable appointment, publisher closed
and Socket.IO available. -/
def envC3w : WriteEnv :=
  { appointments := [{ id := 5, doctor_id := 1, patient_id := 2,
                       status := "pending", appointment_date := 20240110,
                       start_time := 9, end_time := 10 }],
    patients := [{ id := 2, name := "Pat" }],
    doctors := [{ id := 1, name := "Dr A", specialization := "derm" }],
    dbSelectOk := true, dbUpdateOk := true, redisOpen := true,
    cacheDelFails := false, pubOpen := false, pubFails := false, ioOpen := true }

/-- Accept request with a fully resolvable appointment, publisher open
and publishing successfully, Socket.IO unavailable (broadcast-only
delivery). -/
def envC3b : WriteEnv :=
  { appointments := [{ id := 5, doctor_id := 1, patient_id := 2,
                       status := "pending", appointment_date := 20240110,
                       start_time := 9, end_time := 10 }],
    patients := [{ id := 2, name := "Pat" }],
    doctors := [{ id := 1, name := "Dr A", specialization := "derm" }],
    dbSelectOk := true, dbUpdateOk := true, redisOpen := true,
    cacheDelFails := false, pubOpen := true, pubFails := false, ioOpen := false }

/-- Dashboard read whose appointments query fails. -/
def envC4 : DashEnv :=
  { now := 0, doctor_id := 1, redisOpen := false, cacheGetFails := false,
    cacheSetFails := false, cache := [], dbOk := false,
    appointments := [], patients := [] }

/-- Dashboard read whose cache probe raises. -/
def envC5a : DashEnv :=
  { now := 0, doctor_id := 1, redisOpen := true, cacheGetFails := true,
    cacheSetFails := false, cache := [], dbOk := true,
    appointments := [{ id := 1, doctor_id := 1, patient_id := 1,
                         status := "pending", appointment_date := 20240110,
                         start_time := 9, end_time := 10 }],
    patients := [{ id := 1, name := "Pat" }] }

/-- Dashboard read whose cache populate raises after a successful store
query. -/
def envC5b : DashEnv :=
  { now := 0, doctor_id := 1, redisOpen := true, cacheGetFails := false,
    cacheSetFails := true, cache := [], dbOk := true,
    appointments := [{ id := 1, doctor_id := 1, patient_id := 1,
                         status := "pending", appointment_date := 20240110,
                         start_time := 9, end_time := 10 }],
    patients := [{ id := 1, name := "Pat" }] }

/-- Successful status update with the publisher closed. -/
def envC6 : StatusEnv :=
  { now := 0, doctorId := 1, doctorName := "Dr A", redisOpen := true,
    storeFails := false, presence := [], pubOpen := false, pubFails := false,
    ioOpen := false }

/-- Status update whose publish raises after the store write succeeded. -/
def envC7 : StatusEnv :=
  { now := 0, doctorId := 1, doctorName := "Dr A", redisOpen := true,
    storeFails := false, presence := [], pubOpen := true, pubFails := true,
    ioOpen := true }

/-- Status update with the publisher closed (success path of the
amended C7 statement). -/
def envC7b : StatusEnv :=
  { now := 0, doctorId := 2, doctorName := "Dr B", redisOpen := true,
    storeFails := false, presence := [], pubOpen := false, pubFails := false,
    ioOpen := false }

/-- Environment for an invalid status value. -/
def envC8 : StatusEnv :=
  { now := 0, doctorId := 1, doctorName := "Dr A", redisOpen := true,
    storeFails := false, presence := [], pubOpen := true, pubFails := false,
    ioOpen := true }

/-- Reject/accept request whose joined select raises, reaching the outer
catch of either handler. -/
def envC9 : WriteEnv :=
  { appointments := [], patients := [], doctors := [],
    dbSelectOk := false, dbUpdateOk := true, redisOpen := false,
    cacheDelFails := false, pubOpen := false, pubFails := false, ioOpen := true }

/-- Status fan-out over two doctors, one with a live presence entry. -/
def envC10 : AllEnv :=
  { now := 0, redisOpen := true,
    presence := [{ key := "doctor:status:1", value := "busy", expiresAt := some 100 }],
    dbOk := true,
    doctors := [{ id := 1, name := "Dr A", specialization := "derm" },
                { id := 2, name := "Dr B", specialization := "gp" }] }

/-! ## Helper lemmas -/

/-- The dashboard comparison implies the specification's ordering. -/
theorem dashRel_imp_dashOrdered : ∀ (a b : DashRow),
    dashRel a b → dashOrdered a b := by
  intro a b h
  unfold dashRel at h
  unfold dashOrdered
  by_cases ha : a.status = "pending" <;> by_cases hb : b.status = "pending" <;>
    simp only [statusRank, ha, hb, if_true, if_false, ite_true, ite_false] at h <;>
    simp [ha, hb] <;> omega

/-- Reading back the key just written. -/
theorem cacheGet_cacheSet {α : Type} (entries : List (CacheEntry α)) (k : String)
    (v : α) (exp : Option Nat) (t : Nat) :
    cacheGet (cacheSet entries k v exp) t k =
      match exp with
      | none => some v
      | some e => if t < e then some v else none := by
  unfold cacheGet cacheSet
  rw [List.find?_cons_of_pos _ (by simp)]

/-! ## C2 -/

/-- C2: a dashboard read that misses the cache returns the owner's
appointments with every pending row before every non-pending row and,
within each group, ascending date then ascending start time; the
returned sequence (a permutation of the joined store rows) is written to
the cache under the owner's key with a 45-unit expiration, and the read
reports no error and `fromCache = false`. -/
theorem dashboard_cold_read_sorted_cached (env : DashEnv)
    (hopen : env.redisOpen = true) (hgf : env.cacheGetFails = false)
    (hmiss : cacheGet env.cache env.now (dashKey env.doctor_id) = none)
    (hdb : env.dbOk = true) (hsf : env.cacheSetFails = false)
    (_hown : env.appointments.filter (fun a => a.doctor_id == env.doctor_id) ≠ []) :
    (dashboardHandler env).appointments.Pairwise dashOrdered ∧
    (dashboardHandler env).appointments.Perm
      (dashboardJoin env.appointments env.patients env.doctor_id) ∧
    (dashboardHandler env).cache =
      cacheSet env.cache (dashKey env.doctor_id)
        (dashboardHandler env).appointments (some (env.now + 45)) ∧
    (dashboardHandler env).error = none ∧
    (dashboardHandler env).fromCache = false := by
  have hm : dashCached env = none := by
    simp [dashCached, hopen, hgf, hmiss]
  have hout : dashboardHandler env =
      { error := none,
        appointments := dashboardQuery env.appointments env.patients env.doctor_id,
        fromCache := false,
        cache := cacheSet env.cache (dashKey env.doctor_id)
          (dashboardQuery env.appointments env.patients env.doctor_id)
          (some (env.now + 45)) } := by
    unfold dashboardHandler
    rw [hm]
    simp [hdb, hopen, hsf]
  rw [hout]
  refine ⟨?_, ?_, rfl, rfl, rfl⟩
  · exact (List.sorted_insertionSort dashRel
      (dashboardJoin env.appointments env.patients env.doctor_id)).imp
      (fun h => dashRel_imp_dashOrdered _ _ h)
  · exact List.perm_insertionSort dashRel _

/-- Witness for C2 at the specification's example scenario: the cold
read for doctor 1 yields the pending row first, then the accepted row of
`2024-01-05`, then the accepted row of `2024-01-10`. -/
theorem dashboard_cold_read_sorted_cached_witness :
    envC2.redisOpen = true ∧ envC2.cacheGetFails = false ∧
    cacheGet envC2.cache envC2.now (dashKey envC2.doctor_id) = none ∧
    envC2.dbOk = true ∧ envC2.cacheSetFails = false ∧
    envC2.appointments.filter (fun a => a.doctor_id == envC2.doctor_id) ≠ [] ∧
    (dashboardHandler envC2).appointments.Pairwise dashOrdered ∧
    (dashboardHandler envC2).appointments.Perm
      (dashboardJoin envC2.appointments envC2.patients envC2.doctor_id) ∧
    (dashboardHandler envC2).cache =
      cacheSet envC2.cache (dashKey envC2.doctor_id)
        (dashboardHandler envC2).appointments (some (envC2.now + 45)) ∧
    (dashboardHandler envC2).appointments.map
      (fun r => (r.status, r.appointment_date)) =
      [("pending", 20240110), ("accepted", 20240105), ("accepted", 20240110)] := by
  have h := dashboard_cold_read_sorted_cached envC2 rfl rfl (by decide) rfl rfl (by decide)
  exact ⟨rfl, rfl, by decide, rfl, rfl, by decide, h.1, h.2.1, h.2.2.1, by decide⟩

/-! ## C4 -/

/-- C4 counterexample: on a dashboard read whose store query fails, the
handler renders an empty list with `error: null` — no error flag is
reported to the caller, contrary to the claim. -/
theorem dashboard_store_failure_no_error_flag :
    envC4.dbOk = false ∧
    (dashboardHandler envC4).error = none ∧
    (dashboardHandler envC4).appointments = [] := by decide

/-- C4 amended: on a cache miss whose store query fails, the read
degrades to an empty sequence without raising past the handler (the
inner catch swallows the error), but the rendered error flag is `null`:
no error is reported to the caller. -/
theorem dashboard_store_failure_degrades (env : DashEnv)
    (hmiss : dashCached env = none) (hdb : env.dbOk = false) :
    dashboardHandler env =
      { error := none, appointments := [], fromCache := false,
        cache := env.cache } := by
  unfold dashboardHandler
  rw [hmiss]
  simp [hdb]

/-- Witness for the amended C4. -/
theorem dashboard_store_failure_degrades_witness :
    dashCached envC4 = none ∧ envC4.dbOk = false ∧
    dashboardHandler envC4 =
      { error := none, appointments := [], fromCache := false,
        cache := envC4.cache } :=
  ⟨rfl, rfl, dashboard_store_failure_degrades envC4 rfl rfl⟩

/-! ## C5 -/

/-- C5: cache failures never surface on the dashboard read. First
conjunct: a raising cache probe is treated as a miss and the read still
succeeds from the store with no error. Second conjunct: a raising cache
populate after a successful store query leaves the result intact
(`source = store`, no error) and the cache unchanged. -/
theorem dashboard_cache_failure_invisible :
    (∀ env : DashEnv, env.cacheGetFails = true → env.dbOk = true →
      (dashboardHandler env).error = none ∧
      (dashboardHandler env).appointments =
        dashboardQuery env.appointments env.patients env.doctor_id ∧
      (dashboardHandler env).fromCache = false) ∧
    (∀ env : DashEnv, dashCached env = none → env.dbOk = true →
      env.cacheSetFails = true →
      (dashboardHandler env).error = none ∧
      (dashboardHandler env).appointments =
        dashboardQuery env.appointments env.patients env.doctor_id ∧
      (dashboardHandler env).fromCache = false ∧
      (dashboardHandler env).cache = env.cache) := by
  constructor
  · intro env hgf hdb
    have hm : dashCached env = none := by simp [dashCached, hgf]
    unfold dashboardHandler
    rw [hm]
    simp [hdb]
  · intro env hm hdb hsf
    unfold dashboardHandler
    rw [hm]
    simp [hdb, hsf]

/-- Witness for C5 at a raising cache probe and at a raising cache
populate. -/
theorem dashboard_cache_failure_invisible_witness :
    (envC5a.cacheGetFails = true ∧ envC5a.dbOk = true ∧
      (dashboardHandler envC5a).error = none ∧
      (dashboardHandler envC5a).appointments =
        dashboardQuery envC5a.appointments envC5a.patients envC5a.doctor_id ∧
      (dashboardHandler envC5a).fromCache = false) ∧
    (dashCached envC5b = none ∧ envC5b.dbOk = true ∧
      envC5b.cacheSetFails = true ∧
      (dashboardHandler envC5b).error = none ∧
      (dashboardHandler envC5b).appointments =
        dashboardQuery envC5b.appointments envC5b.patients envC5b.doctor_id ∧
      (dashboardHandler envC5b).cache = envC5b.cache) := by
  have h1 := dashboard_cache_failure_invisible.1 envC5a rfl rfl
  have h2 := dashboard_cache_failure_invisible.2 envC5b rfl rfl rfl
  exact ⟨⟨rfl, rfl, h1.1, h1.2.1, h1.2.2⟩, ⟨rfl, rfl, rfl, h2.1, h2.2.1, h2.2.2.2⟩⟩

/-! ## C1 -/

/-- C1 counterexample: at an appointment id that does not resolve to a
joined row (the row exists, its doctor row does not), the accept handler
still executes the UPDATE — which mutates the stored row — and fails
with a 500 server error, not a Not-Found condition. -/
theorem accept_unresolved_counterexample :
    appointmentSelect envC1.appointments envC1.patients envC1.doctors 42 = [] ∧
    (acceptHandler envC1 42).updatesExecuted = [("accepted", 42)] ∧
    (acceptHandler envC1 42).appointments ≠ envC1.appointments ∧
    isClientNotFound (acceptHandler envC1 42).response = false ∧
    (acceptHandler envC1 42).response =
      .serverError 500 ("Error accepting appointment") := by decide

/-- C1 amended: when the joined select yields no row (and both store
statements succeed), the accept handler answers a generic 500 server
error rather than Not-Found, and the UPDATE is still executed (mutating
any appointment row with that id whose join merely failed); no cache key
is deleted and no ChangeEvent is emitted on either channel. -/
theorem accept_unresolved_id (env : WriteEnv) (aid : Nat)
    (hsel : env.dbSelectOk = true) (hupd : env.dbUpdateOk = true)
    (hmiss : appointmentSelect env.appointments env.patients env.doctors aid = []) :
    acceptHandler env aid =
      { appointments := updateStatus env.appointments "accepted" aid,
        updatesExecuted := [("accepted", aid)], cacheDels := [],
        published := [], emitted := [],
        response := .serverError 500 ("Error accepting appointment") } := by
  unfold acceptHandler acceptBody
  rw [hsel, hupd, hmiss]
  simp [mkWriteOut]

/-- Witness for the amended C1. -/
theorem accept_unresolved_id_witness :
    envC1.dbSelectOk = true ∧ envC1.dbUpdateOk = true ∧
    appointmentSelect envC1.appointments envC1.patients envC1.doctors 42 = [] ∧
    acceptHandler envC1 42 =
      { appointments := updateStatus envC1.appointments "accepted" 42,
        updatesExecuted := [("accepted", 42)], cacheDels := [],
        published := [], emitted := [],
        response := .serverError 500 ("Error accepting appointment") } :=
  ⟨rfl, rfl, by decide, accept_unresolved_id envC1 42 rfl rfl (by decide)⟩

/-! ## C9 -/

/-- The reject body coincides with the substituted accept body: the two
transcriptions are identical terms. -/
theorem rejectBody_eq_substituted : rejectBody = acceptBodySubst := rfl

/-- C9 counterexample: when the joined select raises, the two handlers
produce different results — the reject handler's error page reads
`Error rejecting appointment` while the substituted accept handler's
reads `Error accepting appointment` (the literal `accepted` does not
occur in that message, so the substitution leaves it unchanged). -/
theorem reject_accept_subst_counterexample :
    rejectHandler envC9 7 ≠ acceptHandlerSubst envC9 7 := by decide

/-- C9 amended: for every environment and appointment id, the reject
handler equals the accept handler with the literal `accepted` replaced
by `rejected`, except for the human-readable body of the 500 error
response, which differs between the two routes (`Error rejecting
appointment` versus `Error accepting appointment`): queries, durable
update, cache deletion, event fields and every non-error response
coincide. -/
theorem reject_is_accept_substituted (env : WriteEnv) (aid : Nat) :
    (rejectHandler env aid).appointments = (acceptHandlerSubst env aid).appointments ∧
    (rejectHandler env aid).updatesExecuted = (acceptHandlerSubst env aid).updatesExecuted ∧
    (rejectHandler env aid).cacheDels = (acceptHandlerSubst env aid).cacheDels ∧
    (rejectHandler env aid).published = (acceptHandlerSubst env aid).published ∧
    (rejectHandler env aid).emitted = (acceptHandlerSubst env aid).emitted ∧
    sameUpToMessage (rejectHandler env aid).response (acceptHandlerSubst env aid).response := by
  unfold rejectHandler acceptHandlerSubst
  rw [rejectBody_eq_substituted]
  rcases h : acceptBodySubst env aid with ⟨eff, resp⟩
  cases resp
  · exact ⟨rfl, rfl, rfl, rfl, rfl, Or.inr ⟨500, _, _, rfl, rfl⟩⟩
  · exact ⟨rfl, rfl, rfl, rfl, rfl, Or.inl rfl⟩

/-- The accept handler's effect fields are those of its body. -/
theorem acceptHandler_projs (env : WriteEnv) (aid : Nat) :
    (acceptHandler env aid).published = (acceptBody env aid).1.published ∧
    (acceptHandler env aid).emitted = (acceptBody env aid).1.emitted := by
  unfold acceptHandler
  rcases h : acceptBody env aid with ⟨eff, resp⟩
  cases resp <;> exact ⟨rfl, rfl⟩

/-! ## C3 -/

/-- C3 counterexample: a presence change with the broadcast publisher
closed and the direct Socket.IO registry available results in a
successful status update during which neither broadcast nor direct
delivery occurs — the presence path has no direct fallback. -/
theorem presence_publish_neither_counterexample :
    envC3.ioOpen = true ∧ envC3.pubOpen = false ∧
    (setStatusHandler envC3 "busy").response = .jsonOk ("busy") ∧
    (setStatusHandler envC3 "busy").published = [] ∧
    (setStatusHandler envC3 "busy").emitted = [] := by decide

/-- C3 amended: for appointment status-change publishes the claim holds
— never both channels, and exactly one delivery whenever the publish
step is reached and at least one channel can deliver, that is the
direct registry is available or the open publisher's publish succeeds
(first two conjuncts); the choice is made per attempt from current
availability. For presence publishes there is no direct fallback: the
status-update handler never delivers directly, and with the broadcast
publisher closed it delivers nothing at all (third conjunct). -/
theorem notifier_fallback :
    (∀ (env : WriteEnv) (aid : Nat),
      (acceptHandler env aid).published = [] ∨ (acceptHandler env aid).emitted = []) ∧
    (∀ (env : WriteEnv) (aid : Nat),
      env.dbSelectOk = true → env.dbUpdateOk = true →
      (env.ioOpen = true ∨ (env.pubOpen = true ∧ env.pubFails = false)) →
      appointmentSelect env.appointments env.patients env.doctors aid ≠ [] →
      (acceptHandler env aid).published.length +
        (acceptHandler env aid).emitted.length = 1) ∧
    (∀ (env : StatusEnv) (status : String),
      (setStatusHandler env status).emitted = [] ∧
      (env.pubOpen = false → (setStatusHandler env status).published = [])) := by
  refine ⟨?_, ?_, ?_⟩
  · intro env aid
    rw [(acceptHandler_projs env aid).1, (acceptHandler_projs env aid).2]
    unfold acceptBody
    cases hs : env.dbSelectOk <;> cases hu : env.dbUpdateOk <;> simp only [hs, hu] <;>
      simp only [Bool.not_true, Bool.not_false, if_true, if_false, ite_true, ite_false] <;>
      try simp
    all_goals
      rcases hh : (appointmentSelect env.appointments env.patients env.doctors aid).head? with
        _ | appt <;>
      cases hp : env.pubOpen <;> cases hf : env.pubFails <;> cases hio : env.ioOpen <;>
      simp [hh, hp, hf, hio]
  · intro env aid hs hu havail hne
    obtain ⟨r, rs, hr⟩ := List.exists_cons_of_ne_nil hne
    rw [(acceptHandler_projs env aid).1, (acceptHandler_projs env aid).2]
    unfold acceptBody
    rw [hs, hu, hr]
    rcases havail with hio | ⟨hp, hf⟩
    · cases hp : env.pubOpen <;> cases hf : env.pubFails <;>
        simp [hio]
    · simp [hp, hf]
  · intro env status
    constructor
    · unfold setStatusHandler
      by_cases hv : status ∈ validStatuses
      · cases hro : env.redisOpen <;> cases hsf : env.storeFails <;>
          cases hp : env.pubOpen <;> cases hf : env.pubFails <;>
          by_cases ho : status == "offline" <;>
          simp [hv, hro, hsf, hp, hf, ho]
      · simp [hv]
    · intro hp
      unfold setStatusHandler
      by_cases hv : status ∈ validStatuses
      · cases hro : env.redisOpen <;> cases hsf : env.storeFails <;>
          by_cases ho : status == "offline" <;> simp [hv, hro, hsf, ho, hp]
      · simp [hv]

/-- Witness for the amended C3: a resolvable accept with a closed
publisher and an available registry delivers exactly one event; so does
one with an open, succeeding publisher and no registry (broadcast-only);
the presence path at `envC3` delivers nothing. -/
theorem notifier_fallback_witness :
    envC3w.dbSelectOk = true ∧ envC3w.dbUpdateOk = true ∧ envC3w.ioOpen = true ∧
    appointmentSelect envC3w.appointments envC3w.patients envC3w.doctors 5 ≠ [] ∧
    (acceptHandler envC3w 5).published.length +
      (acceptHandler envC3w 5).emitted.length = 1 ∧
    ((acceptHandler envC3w 5).published = [] ∨ (acceptHandler envC3w 5).emitted = []) ∧
    envC3b.ioOpen = false ∧ envC3b.pubOpen = true ∧ envC3b.pubFails = false ∧
    (acceptHandler envC3b 5).published.length +
      (acceptHandler envC3b 5).emitted.length = 1 ∧
    (setStatusHandler envC3 "busy").emitted = [] ∧
    (setStatusHandler envC3 "busy").published = [] :=
  ⟨rfl, rfl, rfl, by decide,
   notifier_fallback.2.1 envC3w 5 rfl rfl (Or.inl rfl) (by decide),
   notifier_fallback.1 envC3w 5,
   rfl, rfl, rfl,
   notifier_fallback.2.1 envC3b 5 rfl rfl (Or.inr ⟨rfl, rfl⟩) (by decide),
   (notifier_fallback.2.2 envC3 "busy").1,
   (notifier_fallback.2.2 envC3 "busy").2 rfl⟩

/-! ## C6 -/

/-- Response and stored presence of a successful status update. -/
theorem setStatus_ok_projs (env : StatusEnv) (status : String)
    (hv : status ∈ validStatuses) (hro : env.redisOpen = true)
    (hsf : env.storeFails = false)
    (hpub : env.pubOpen = false ∨ env.pubFails = false) :
    (setStatusHandler env status).response = .jsonOk status ∧
    (setStatusHandler env status).presence =
      (if status == "offline" then
        cacheSet env.presence (statusKey env.doctorId) status none
      else
        cacheSet env.presence (statusKey env.doctorId) status (some (env.now + 1800))) := by
  unfold setStatusHandler
  rcases hpub with h | h
  · by_cases ho : status == "offline" <;> simp [hv, hro, hsf, h, ho]
  · cases hp : env.pubOpen <;> by_cases ho : status == "offline" <;>
      simp [hv, hro, hsf, h, hp, ho]

/-- C6: a successful status update stores `offline` with no expiration —
a later read at any instant still answers `offline` — while `available`
or `busy` is stored with a 1800-unit expiration: reads before the
expiry instant answer the stored value, reads at or after it answer
`offline`. -/
theorem setStatus_ttl (env : StatusEnv) (status : String)
    (hv : status ∈ validStatuses) (hro : env.redisOpen = true)
    (hsf : env.storeFails = false)
    (hpub : env.pubOpen = false ∨ env.pubFails = false) :
    (setStatusHandler env status).response = .jsonOk status ∧
    (status = "offline" →
      ∀ t, getStatusHandler true (setStatusHandler env status).presence t env.doctorId =
        "offline") ∧
    (status ≠ "offline" →
      (∀ t, t < env.now + 1800 →
        getStatusHandler true (setStatusHandler env status).presence t env.doctorId =
          status) ∧
      (∀ t, env.now + 1800 ≤ t →
        getStatusHandler true (setStatusHandler env status).presence t env.doctorId =
          "offline")) := by
  obtain ⟨hresp, hpres⟩ := setStatus_ok_projs env status hv hro hsf hpub
  refine ⟨hresp, ?_, ?_⟩
  · intro ho t
    rw [hpres]
    simp [ho, getStatusHandler, cacheGet_cacheSet]
  · intro ho
    have hbo : (status == "offline") = false := by simp [ho]
    constructor
    · intro t ht
      rw [hpres]
      simp [hbo, getStatusHandler, cacheGet_cacheSet, ht]
    · intro t ht
      rw [hpres]
      have hnt : ¬ t < env.now + 1800 := by omega
      simp [hbo, getStatusHandler, cacheGet_cacheSet, hnt]

/-- Witness for C6: at `envC6` (now = 0), `busy` is readable at instant 0
and reads `offline` from instant 1800 on; `offline` is still readable at
instant 1000000. -/
theorem setStatus_ttl_witness :
    ("busy" ∈ validStatuses) ∧ envC6.redisOpen = true ∧ envC6.storeFails = false ∧
    (setStatusHandler envC6 "busy").response = .jsonOk ("busy") ∧
    getStatusHandler true (setStatusHandler envC6 "busy").presence 0 envC6.doctorId =
      "busy" ∧
    getStatusHandler true (setStatusHandler envC6 "busy").presence 1800 envC6.doctorId =
      "offline" ∧
    (setStatusHandler envC6 "offline").response = .jsonOk ("offline") ∧
    getStatusHandler true (setStatusHandler envC6 "offline").presence 1000000
      envC6.doctorId = "offline" := by
  have h1 := setStatus_ttl envC6 "busy" (by decide) rfl rfl (Or.inl rfl)
  have h2 := setStatus_ttl envC6 "offline" (by decide) rfl rfl (Or.inl rfl)
  exact ⟨by decide, rfl, rfl, h1.1, (h1.2.2 (by decide)).1 0 (by decide),
    (h1.2.2 (by decide)).2 1800 (by decide), h2.1, h2.2.1 rfl 1000000⟩

/-! ## C7 -/

/-- C7 counterexample: with the publisher open but the publish raising,
the status update answers a 500 error — the caller does not receive the
success result — although the presence value was already stored. -/
theorem setStatus_publish_failure_counterexample :
    envC7.pubOpen = true ∧ envC7.pubFails = true ∧
    (setStatusHandler envC7 "available").response =
      .jsonErr 500 ("Failed to update status") ∧
    (setStatusHandler envC7 "available").presence ≠ envC7.presence := by decide

/-- C7 amended: after a successful store of a valid status, a raising
publish propagates to the outer catch and fails the call with a 500
error even though the presence value remains stored; only when the
publisher is absent or closed is the notification silently skipped and
success still returned. -/
theorem setStatus_publish_failure (env : StatusEnv) (status : String)
    (hv : status ∈ validStatuses) (hro : env.redisOpen = true)
    (hsf : env.storeFails = false) :
    (env.pubOpen = true → env.pubFails = true →
      (setStatusHandler env status).response =
        .jsonErr 500 ("Failed to update status") ∧
      getStatusHandler true (setStatusHandler env status).presence env.now
        env.doctorId = status) ∧
    (env.pubOpen = false →
      (setStatusHandler env status).response = .jsonOk status ∧
      (setStatusHandler env status).published = []) := by
  constructor
  · intro hp hf
    have hlt : env.now < env.now + 1800 := by omega
    unfold setStatusHandler
    by_cases ho : status == "offline" <;>
      simp [hv, hro, hsf, hp, hf, ho, getStatusHandler, cacheGet_cacheSet, hlt]
  · intro hp
    have h := (setStatus_ok_projs env status hv hro hsf (Or.inl hp)).1
    refine ⟨h, ?_⟩
    unfold setStatusHandler
    by_cases ho : status == "offline" <;> simp [hv, hro, hsf, hp, ho]

/-- Witness for the amended C7. -/
theorem setStatus_publish_failure_witness :
    ("available" ∈ validStatuses) ∧ envC7.pubOpen = true ∧ envC7.pubFails = true ∧
    (setStatusHandler envC7 "available").response =
      .jsonErr 500 ("Failed to update status") ∧
    getStatusHandler true (setStatusHandler envC7 "available").presence envC7.now
      envC7.doctorId = "available" ∧
    envC7b.pubOpen = false ∧
    (setStatusHandler envC7b "available").response = .jsonOk ("available") ∧
    (setStatusHandler envC7b "available").published = [] := by
  have h1 := (setStatus_publish_failure envC7 "available" (by decide) rfl rfl).1 rfl rfl
  have h2 := (setStatus_publish_failure envC7b "available" (by decide) rfl rfl).2 rfl
  exact ⟨by decide, rfl, rfl, h1.1, h1.2, rfl, h2.1, h2.2⟩

/-! ## C8 -/

/-- C8: a status value outside the valid set is rejected with a 400
Invalid-Input response; the presence store is untouched and no event is
published or emitted. -/
theorem setStatus_invalid_rejected (env : StatusEnv) (status : String)
    (hv : status ∉ validStatuses) :
    setStatusHandler env status =
      { presence := env.presence, published := [], emitted := [],
        response :=
          .jsonErr 400 ("Invalid status. Must be available, busy, or offline.") } := by
  unfold setStatusHandler
  simp [hv]

/-- Witness for C8 at the specification's example value `flying`. -/
theorem setStatus_invalid_rejected_witness :
    ("flying" ∉ validStatuses) ∧
    setStatusHandler envC8 "flying" =
      { presence := envC8.presence, published := [], emitted := [],
        response :=
          .jsonErr 400 ("Invalid status. Must be available, busy, or offline.") } :=
  ⟨by decide, setStatus_invalid_rejected envC8 "flying" (by decide)⟩

/-! ## C10 -/

/-- Folding JS object assignment over distinct keys fresh for the
accumulator appends one entry per key. -/
theorem foldl_objAssign (f : Nat → String) (ids : List Nat) :
    ∀ m : List (Nat × String), ids.Nodup → (∀ i ∈ ids, ∀ p ∈ m, p.1 ≠ i) →
      ids.foldl (fun acc id => objAssign acc id (f id)) m =
        m ++ ids.map (fun id => (id, f id)) := by
  induction ids with
  | nil => intro m _ _; simp
  | cons id ids ih =>
    intro m hnd hdisj
    rw [List.foldl_cons]
    have hm : objAssign m id (f id) = m ++ [(id, f id)] := by
      unfold objAssign
      have hany : m.any (fun p => p.1 == id) = false := by
        rw [List.any_eq_false]
        intro p hp
        simpa using hdisj id (List.mem_cons_self id ids) p hp
      rw [hany]
      simp
    rw [hm]
    have hdisj' : ∀ i ∈ ids, ∀ p ∈ m ++ [(id, f id)], p.1 ≠ i := by
      intro i hi p hp
      rcases List.mem_append.mp hp with h | h
      · exact hdisj i (List.mem_cons_of_mem id hi) p h
      · have hpe := List.mem_singleton.mp h
        subst hpe
        intro heq
        simp only [] at heq
        subst heq
        exact (List.nodup_cons.mp hnd).1 hi
    rw [ih (m ++ [(id, f id)]) hnd.of_cons hdisj']
    simp

/-- C10: when the store query succeeds (and its ids are distinct, as
primary keys are), the fan-out returns exactly one entry per doctor id
from the store — in store order, with no other keys — and each value is
the stored presence value, or `offline` when the key is absent (or
expired) or the cache is closed. -/
theorem getAllStatuses_keys_values (env : AllEnv)
    (hdb : env.dbOk = true) (hnd : (env.doctors.map (fun d => d.id)).Nodup) :
    getAllStatusesHandler env =
      .ok (env.doctors.map fun d =>
        (d.id, if env.redisOpen then
            Option.getD (cacheGet env.presence env.now (statusKey d.id)) ("offline")
          else "offline")) ∧
    (∀ statuses, getAllStatusesHandler env = .ok statuses →
      statuses.map Prod.fst = env.doctors.map (fun d => d.id) ∧
      ∀ p ∈ statuses,
        (env.redisOpen = true ∧
          cacheGet env.presence env.now (statusKey p.1) = some p.2) ∨
        (p.2 = "offline" ∧
          (env.redisOpen = false ∨
            cacheGet env.presence env.now (statusKey p.1) = none))) := by
  have hmain : getAllStatusesHandler env =
      .ok (env.doctors.map fun d =>
        (d.id, if env.redisOpen then
            Option.getD (cacheGet env.presence env.now (statusKey d.id)) ("offline")
          else "offline")) := by
    unfold getAllStatusesHandler
    rw [hdb]
    cases hro : env.redisOpen
    · simp only [Bool.not_true, if_false, ite_false, Bool.false_eq_true]
      rw [foldl_objAssign (fun _ => "offline") (env.doctors.map (fun d => d.id)) []
        hnd (by intro i _ p hp; simp at hp)]
      simp [List.map_map, Function.comp]
    · simp only [Bool.not_true, if_false, ite_true, Bool.false_eq_true]
      rw [foldl_objAssign
        (fun id => Option.getD (cacheGet env.presence env.now (statusKey id)) ("offline"))
        (env.doctors.map (fun d => d.id)) [] hnd (by intro i _ p hp; simp at hp)]
      simp [List.map_map, Function.comp]
  refine ⟨hmain, ?_⟩
  intro statuses heq
  rw [hmain] at heq
  injection heq with heq
  subst heq
  constructor
  · simp [List.map_map, Function.comp]
  · intro p hp
    simp only [List.mem_map] at hp
    obtain ⟨d, _, rfl⟩ := hp
    cases hro : env.redisOpen
    · right
      simp [hro]
    · rcases hg : cacheGet env.presence env.now (statusKey d.id) with _ | v
      · right
        simp [hro, hg]
      · left
        simp [hro, hg]

/-- Witness for C10: two doctors, one live `busy` entry, one absent key. -/
theorem getAllStatuses_keys_values_witness :
    envC10.dbOk = true ∧ (envC10.doctors.map (fun d => d.id)).Nodup ∧
    getAllStatusesHandler envC10 = .ok [(1, "busy"), (2, "offline")] := by
  refine ⟨rfl, by decide, ?_⟩
  have h := (getAllStatuses_keys_values envC10 rfl (by decide)).1
  rw [h]
  decide

end MediSync
